import Mathlib

/-!
Verification development for the Phoenix live-preview virtual serving and
cross-context synchronization subsystem.

The definitions below are a shallow embedding of:
  * `src/extensionsIntegrated/Phoenix-live-preview/BrowserStaticServer.js`
    (content resolver `StaticServer.prototype._getInstrumentedContent`,
    `getContent`, `_getMarkdown`, `_getRedirectionPage`, the relay channel
    dispatch of `_initLivePreviewChannel`, and the tab registry with its
    heartbeat sweep `_startHeartBeatListeners`), and
  * the live-preview loader page (`setupNavigationWatcher`, `securityOk`,
    the `TRUSTED_ORIGINS` allowlist and the window `message` listener).

External collaborators that are not part of this repository's sources
(`ProjectManager.isWithinProject`, `utils.isMarkdownFile`,
`DocumentManager`, `fs.readFile`, `BaseServer._documentKey`,
`LiveDevProtocol.getRemoteScript`) are modelled as fields of an
environment record, so every theorem is quantified over their behaviour.
The two Mustache-rendered text assets (`redirectPage.html`,
`markdown.html`) are modelled by constructors carrying the template
variables they are rendered from.
-/

namespace Phoenix

/-! URL model: enough of the WHATWG URL interface used by the source
(`new URL`, `searchParams.get`, `searchParams.delete`, `href`). -/

/-- A URL split into its query-free part and its (name, value) query
parameters, mirroring what `BrowserStaticServer.js` reads and writes via
`URL.searchParams`. -/
structure UrlM where
  base : String
  params : List (String × String)
deriving DecidableEq, Repr

/-- Serialization of search params back into the query-string suffix of
`URL.href`. -/
def serializeParams : List (String × String) → String
  | [] => ""
  | ps => "?" ++ String.intercalate "&" (ps.map (fun p => p.1 ++ "=" ++ p.2))

/-- The `href` property of the modelled URL. -/
def UrlM.href (u : UrlM) : String := u.base ++ serializeParams u.params

/-- Model of `url.searchParams.get(name)`: first value for the name, or
none. -/
def UrlM.getParam (u : UrlM) (name : String) : Option String :=
  (u.params.find? (fun p => p.1 == name)).map Prod.snd

/-- Model of `url.searchParams.delete(name)`: removes every pair with the
given name. -/
def UrlM.deleteParam (u : UrlM) (name : String) : UrlM :=
  { u with params := u.params.filter (fun p => p.1 != name) }

/-- JavaScript truthiness of a `searchParams.get` result: non-null and not
the empty string. -/
def jsTruthy : Option String → Bool
  | some s => s != ""
  | none => false

/-- Character-list model of `s.startsWith(pre)`. -/
def strStartsWith (s pre : String) : Bool :=
  List.isPrefixOf pre.data s.data

/-- Character-list model of `s.endsWith(post)`. -/
def strEndsWith (s post : String) : Bool :=
  List.isPrefixOf post.data.reverse s.data.reverse

/-- Whether the second character list occurs contiguously inside the
first one. -/
def listHasInfix : List Char → List Char → Bool
  | _, [] => true
  | [], _ :: _ => false
  | c :: rest, p :: ps => List.isPrefixOf (p :: ps) (c :: rest) || listHasInfix rest (p :: ps)

/-- Model of `s.indexOf(pat) === -1` for strings. JavaScript finds the
empty pattern at index 0, so the empty pattern is never missing. -/
def jsIndexOfMissing (s pat : String) : Bool :=
  if pat == "" then false else !(listHasInfix s.data pat.data)

/-- The query parameter `phcodeLivePreview` that tags popped-out
live-preview tabs (`PHCODE_LIVE_PREVIEW_QUERY_PARAM`). -/
def PHCODE_LIVE_PREVIEW_QUERY_PARAM : String := "phcodeLivePreview"

/-! Content values. In the JavaScript source, `response.contents` is a
string, an array buffer, or null. The two Mustache-rendered pages are kept
as symbolic constructors carrying their template variables: the rendered
text of `redirectPage.html` is a function of the single template variable
`redirectURL`, and the rendered text of `markdown.html` is a function of
the (zero-width-stripped) document text fed to `marked.parse`. -/

/-- A value of the `contents` field of a preview response. -/
inductive ContentVal where
  | nullC : ContentVal
  | text : String → ContentVal
  | bytes : List Nat → ContentVal
  | redirectPageTo : UrlM → ContentVal
  | markdownPage : String → ContentVal
deriving DecidableEq, Repr

/-- A resolved preview response: `{path, contents, headers}` where
`headers` is the optional Content-Type value. -/
structure PreviewResponse where
  path : String
  contents : ContentVal
  headers : Option String
deriving DecidableEq, Repr

/-- Environment of the content resolver: module state of
`BrowserStaticServer.js` together with its external collaborators. -/
structure ResolverEnv where
  /-- Model of `BaseServer._documentKey` (external base class). -/
  documentKey : String → String
  /-- Model of `ProjectManager.isWithinProject` (external collaborator). -/
  withinProject : String → Bool
  /-- The `_virtualServingDocuments` map, keyed by document key. -/
  virtualDocs : String → Option String
  /-- The `_liveDocuments` map projected to `getResponseData().body`; none
  when there is no live document or it has no `getResponseData`. -/
  liveDocBody : String → Option String
  /-- Model of `DocumentManager.getOpenDocumentForPath(...).getText()`. -/
  openDocText : String → Option String
  /-- Model of `fs.readFile(path, BYTE_ARRAY_ENCODING, cb)`: none on
  read error. -/
  disk : String → Option (List Nat)
  /-- Model of `LiveDevProtocol.getRemoteScript()`, the live-reload
  instrumentation marker. -/
  remoteScript : String
  /-- Model of `utils.isMarkdownFile`. -/
  isMarkdownFile : String → Bool
  /-- Full path of the current document's file (or the selected item),
  as read at the top of `getContent`. -/
  currentFile : Option String
  /-- Model of `DocumentManager.getDocumentForPath(...).getText()` used by
  `_getMarkdown`; none when the lookup fails. -/
  docTextForPath : String → Option String
  /-- Whether `_staticServerInstance` is set (`StaticServer.start` ran and
  no `stop` since). -/
  serverStarted : Bool
  /-- The `PREVIEW_BASE_URL` of this phoenix instance. -/
  baseUrl : String
  /-- The module variable `currentPopoutURL`, the now-current preview URL
  last broadcast by `redirectAllTabs`. -/
  currentPopoutURL : Option String

/-- The HTML-family extension test of `_getInstrumentedContent`:
`path.endsWith(".htm") || ... || path.endsWith(".php")`. -/
def isHtmlFamilyPath (p : String) : Bool :=
  strEndsWith p ".htm" || strEndsWith p ".html" || strEndsWith p ".xhtml" || strEndsWith p ".php"

/-- The forced HTML content type attached to HTML-family paths. -/
def HTML_UTF8_CONTENT_TYPE : String := "text/html;charset=UTF-8"

/-- The set of zero-width characters stripped from the head of markdown
text before parsing (the regex in `_getMarkdown`). -/
def zeroWidthChars : List Char :=
  ['\u200B', '\u200C', '\u200D', '\u200E', '\u200F', '\uFEFF']

/-- Model of `text.replace(/^[zero-width chars]/, "")`: drops one leading
zero-width character if present. -/
def stripLeadingZeroWidth (s : String) : String :=
  match s.data with
  | [] => s
  | c :: rest => if zeroWidthChars.contains c then String.mk rest else s

/-- Model of `_getRedirectionPage(redirectURL)`: the rendered
`redirectPage.html` is represented by the URL placed in its `redirectURL`
template variable, which is the given URL with the
`phcodeLivePreview` query parameter stripped. -/
def getRedirectionPage (redirectURL : UrlM) : ContentVal :=
  ContentVal.redirectPageTo (redirectURL.deleteParam PHCODE_LIVE_PREVIEW_QUERY_PARAM)

/-- Model of `_getMarkdown(fullPath)`: renders the current document text
through the markdown template (headers `text/html`, note: without a
charset), or rejects when the document lookup fails. -/
def getMarkdownResponse (env : ResolverEnv) (fullPath : String) :
    Except String PreviewResponse :=
  match env.docTextForPath fullPath with
  | some text =>
      Except.ok { path := fullPath,
                  contents := ContentVal.markdownPage (stripLeadingZeroWidth text),
                  headers := some "text/html" }
  | none => Except.error ("Markdown rendering failed for " ++ fullPath)

/-- Model of `StaticServer.prototype._getInstrumentedContent(requestedPath, url)`.
The in-project security check runs first; then the virtual-document
overlay, the live document (with the popped-out-tab staleness check), the
open document, and finally the disk read, which resolves without headers
and with null contents on read error. -/
def getInstrumentedContent (env : ResolverEnv) (requestedPath : String) (url : UrlM) :
    PreviewResponse :=
  let path := env.documentKey requestedPath
  if !(env.withinProject requestedPath) then
    { path := path, contents := ContentVal.nullC, headers := none }
  else
    let isLivePreviewPopoutPage := jsTruthy (url.getParam PHCODE_LIVE_PREVIEW_QUERY_PARAM)
    let tierContents : Option ContentVal :=
      match env.virtualDocs path with
      | some virtualDocument => some (ContentVal.text virtualDocument)
      | none =>
        match env.liveDocBody path with
        | some body =>
            if isLivePreviewPopoutPage && jsIndexOfMissing body env.remoteScript then
              some (getRedirectionPage url)
            else
              some (ContentVal.text body)
        | none =>
          match env.openDocText requestedPath with
          | some docText => some (ContentVal.text docText)
          | none => none
    match tierContents with
    | none =>
        { path := path,
          contents := match env.disk requestedPath with
                      | some binContent => ContentVal.bytes binContent
                      | none => ContentVal.nullC,
          headers := none }
    | some contents =>
        { path := path,
          contents := contents,
          headers := if isHtmlFamilyPath path then some HTML_UTF8_CONTENT_TYPE else none }

/-- Model of the module-level `getContent(path, url)`: rejects when the
static server is not started or the URL belongs to another phoenix
instance; serves the markdown tier when the path is a markdown file equal
to the current file; otherwise delegates to `_getInstrumentedContent`. -/
def getContent (env : ResolverEnv) (path : String) (url : UrlM) :
    Except String PreviewResponse :=
  if !env.serverStarted then
    Except.error "Static serve not started!"
  else if !(strStartsWith url.href env.baseUrl) then
    Except.error ("Not serving content as url belongs to another phcode instance: " ++ url.href)
  else if env.isMarkdownFile path && (env.currentFile == some path) then
    getMarkdownResponse env path
  else
    Except.ok (getInstrumentedContent env path url)

/-- A `GET_CONTENT` relay message payload: `{requestID, path, url}`. -/
structure GetContentMsg where
  requestID : Nat
  path : String
  url : UrlM
deriving DecidableEq, Repr

/-- A `REQUEST_RESPONSE` message sent back over the relay channel. -/
structure ResponseMsg where
  requestID : Nat
  response : PreviewResponse
deriving DecidableEq, Repr

/-- The `EVENT_GET_CONTENT` branch of `_initLivePreviewChannel`:
`getContent(...).then(send REQUEST_RESPONSE).catch(console.error)`. A
rejected resolution is swallowed by the catch, so it produces no
response message at all. -/
def handleGetContent (env : ResolverEnv) (msg : GetContentMsg) : Option ResponseMsg :=
  match getContent env msg.path msg.url with
  | Except.ok r => some { requestID := msg.requestID, response := r }
  | Except.error _ => none

/-! Embedding of the live-preview loader page (`setupNavigationWatcher`,
`securityOk` and the window `message` listener), the surface-side half of
the trust gate and navigation coordinator. -/

/-- The fixed `TRUSTED_ORIGINS` allowlist of the loader page. -/
def TRUSTED_ORIGINS : List String :=
  ["http://localhost:8000", "http://localhost:8001", "http://localhost:5000",
   "http://127.0.0.1:8000", "http://127.0.0.1:8001", "http://127.0.0.1:5000",
   "https://phcode.live", "https://phcode.dev", "https://dev.phcode.dev",
   "https://staging.phcode.dev", "https://create.phcode.dev",
   "https://phcode-live.ts.r.appspot.com", "https://csinschools.io"]

/-- Mutable state of one loader page: the script-level variables of
`live-preview-loader.html` together with the observable DOM state of the
preview frame and the trust dialog. `frameLoads` counts assignments to
`previewFrame.src` (each assignment reloads the frame, even with an
unchanged URL). -/
structure LoaderState where
  securityAlertAcknowledged : Bool
  previewURL : Option String
  /-- The `trustedProjects` array used as a map from project root to true. -/
  trustedProjects : List String
  currentProjectRoot : String
  frameSrc : String
  frameLoads : Nat
  dialogVisible : Bool
  /-- Roots recorded in `sessionStorage` under the security-clear key. -/
  sessionAck : List String
deriving DecidableEq, Repr

/-- Per-page constants of the loader: its generated `pageLoaderID` and the
external `decodeURIComponent` built-in. -/
structure LoaderEnv where
  pageLoaderID : String
  decode : String → String

/-- A message arriving on the loader's navigation broadcast channel. -/
inductive NavMessage where
  | initialUrlNavigate (URL : String) (msgPageLoaderID : String)
  | redirectPage (URL : String) (force : Bool)
  | updateTitleIcon
  | projectSwitch (projectRoot : String)
  | tabLoaderOnline
deriving DecidableEq, Repr

/-- Assignment to `previewFrame.src`: records the new URL and bumps the
load counter. -/
def setFrame (st : LoaderState) (u : String) : LoaderState :=
  { st with frameSrc := u, frameLoads := st.frameLoads + 1 }

/-- The argument passed to `decodeURIComponent(previewURL)`; JavaScript
stringifies an undefined variable to "undefined". -/
def decodePreview (env : LoaderEnv) (st : LoaderState) : String :=
  env.decode (match st.previewURL with
              | some u => u
              | none => "undefined")

/-- Whether `trustedProjects[root]` is truthy. -/
def isTrusted (st : LoaderState) (root : String) : Bool :=
  st.trustedProjects.contains root

/-- Model of `navigatorChannel.onmessage` in `setupNavigationWatcher`. -/
def handleNavMessage (env : LoaderEnv) (st : LoaderState) (m : NavMessage) : LoaderState :=
  match m with
  | NavMessage.initialUrlNavigate URL msgPageLoaderID =>
      let st1 := { st with previewURL := some URL }
      if !st1.securityAlertAcknowledged || msgPageLoaderID != env.pageLoaderID then st1
      else setFrame st1 URL
  | NavMessage.redirectPage URL force =>
      let st1 := { st with previewURL := some URL }
      if !st1.securityAlertAcknowledged then st1
      else if force || st1.frameSrc != URL then setFrame st1 URL
      else st1
  | NavMessage.updateTitleIcon => st
  | NavMessage.projectSwitch root =>
      let st1 := { st with currentProjectRoot := root }
      if st1.trustedProjects.contains root then
        { setFrame st1 (decodePreview env st1) with
            dialogVisible := false, securityAlertAcknowledged := true }
      else
        { setFrame { st1 with securityAlertAcknowledged := false } "about:blank" with
            dialogVisible := true }
  | NavMessage.tabLoaderOnline => st

/-- Model of `securityOk()`: hides the dialog, loads the real preview URL
into the frame, acknowledges, and marks the current project root trusted
(both in `trustedProjects` and in session storage). -/
def securityOk (env : LoaderEnv) (st : LoaderState) : LoaderState :=
  let st1 := setFrame { st with dialogVisible := false } (decodePreview env st)
  { st1 with securityAlertAcknowledged := true,
             trustedProjects := st1.currentProjectRoot :: st1.trustedProjects,
             sessionAck := st1.currentProjectRoot :: st1.sessionAck }

/-- Payload forwarded over the relay channel by the loader; the shapes the
claims need are a `GET_CONTENT` request and an opaque other event. -/
inductive RelayData where
  | getContentData (msg : GetContentMsg)
  | otherEvent (eventName : String)
deriving DecidableEq, Repr

/-- An envelope posted by the loader on the relay channel:
`{pageLoaderID, data}`. -/
structure RelayPost where
  pageLoaderID : String
  data : RelayData
deriving DecidableEq, Repr

/-- Model of the loader's window `message` listener: a message whose
origin is not in `TRUSTED_ORIGINS` is dropped before any processing;
otherwise the data is forwarded verbatim on the relay channel tagged with
this loader's id. The loader state is never touched by this listener. -/
def handleWindowMessage (env : LoaderEnv) (st : LoaderState) (origin : String)
    (data : RelayData) : LoaderState × List RelayPost :=
  if !(TRUSTED_ORIGINS.contains origin) then (st, [])
  else (st, [{ pageLoaderID := env.pageLoaderID, data := data }])

/-- Projection of the phoenix-side relay dispatch
(`_initLivePreviewChannel`) onto the `REQUEST_RESPONSE` messages it sends:
only a `GET_CONTENT` event whose resolution succeeds produces one. -/
def phoenixContentResponses (renv : ResolverEnv) (post : RelayPost) : Option ResponseMsg :=
  match post.data with
  | RelayData.getContentData msg => handleGetContent renv msg
  | RelayData.otherEvent _ => none

/-- End-to-end observable effect of one window message arriving at the
loader: the loader state afterwards, and the content responses the editor
process sends for the forwarded relay posts. -/
def windowMessageContentResponses (env : LoaderEnv) (renv : ResolverEnv)
    (st : LoaderState) (origin : String) (data : RelayData) :
    LoaderState × List ResponseMsg :=
  let out := handleWindowMessage env st origin data
  (out.1, out.2.filterMap (phoenixContentResponses renv))

/-- One atomic step of the loader page. -/
inductive LoaderStep where
  | nav (m : NavMessage)
  | trustOk
  | winMsg (origin : String) (data : RelayData)

/-- The loader transition function. -/
def loaderStep (env : LoaderEnv) (st : LoaderState) (s : LoaderStep) : LoaderState :=
  match s with
  | LoaderStep.nav m => handleNavMessage env st m
  | LoaderStep.trustOk => securityOk env st
  | LoaderStep.winMsg origin data => (handleWindowMessage env st origin data).1

/-- The loader state right after `navigateToInitialURL` ran in a fresh
browsing session: no project trusted, alert not acknowledged, both frames
on `about:blank`, dialog shown, empty session storage. -/
def initLoaderState (initialRoot : String) : LoaderState :=
  { securityAlertAcknowledged := false
    previewURL := none
    trustedProjects := []
    currentProjectRoot := initialRoot
    frameSrc := "about:blank"
    frameLoads := 0
    dialogVisible := true
    sessionAck := [] }

/-- Reachability of a loader state from some fresh-session initial state
by loader steps. -/
inductive LoaderReachable (env : LoaderEnv) : LoaderState → Prop where
  | init (root : String) : LoaderReachable env (initLoaderState root)
  | step {st : LoaderState} (s : LoaderStep) :
      LoaderReachable env st → LoaderReachable env (loaderStep env st s)

/-! Embedding of the tab registry (`livePreviewTabs` with
`_startHeartBeatListeners`). Timestamps are milliseconds as natural
numbers; the JavaScript `endTime - lastSeen > 10000` guard is false for a
future `lastSeen` in both models. -/

/-- One record of the `livePreviewTabs` map. `navigationTab` is true
exactly for loader surfaces registered by `TAB_LOADER_ONLINE`. -/
structure TabInfo where
  lastSeen : Nat
  url : Option String
  navigationTab : Bool
deriving DecidableEq, Repr

/-- Eviction timeout of the heartbeat sweep (`TAB_HEARTBEAT_TIMEOUT`). -/
def TAB_HEARTBEAT_TIMEOUT : Nat := 10000

/-- The `livePreviewTabs` map as an insertion-ordered association list
with unique keys (JavaScript `Map` semantics). -/
abbrev TabMap : Type := List (String × TabInfo)

/-- Model of `Map.get`. -/
def tabsGet (tabs : TabMap) (id : String) : Option TabInfo :=
  (List.find? (fun p => p.1 == id) tabs).map Prod.snd

/-- Model of `Map.set`: updates the entry in place when the key exists,
appends it otherwise. -/
def tabsSet (tabs : TabMap) (id : String) (info : TabInfo) : TabMap :=
  if List.any tabs (fun p => p.1 == id) then
    List.map (fun p => if p.1 == id then (id, info) else p) tabs
  else
    tabs ++ [(id, info)]

/-- The `TAB_LOADER_ONLINE` handler of `_initNavigatorChannel`: records a
loader-surface heartbeat with `navigationTab: true`. -/
def recordLoaderHeartbeat (tabs : TabMap) (id : String) (url : Option String)
    (now : Nat) : TabMap :=
  tabsSet tabs id { lastSeen := now, url := url, navigationTab := true }

/-- The `TAB_ONLINE` handler of `_initLivePreviewChannel`: records a
content-surface heartbeat (`navigationTab` left undefined, hence falsy). -/
def recordTabHeartbeat (tabs : TabMap) (id : String) (url : Option String)
    (now : Nat) : TabMap :=
  tabsSet tabs id { lastSeen := now, url := url, navigationTab := false }

/-- Whether a record is past the heartbeat timeout at sweep time `now`. -/
def isTimedOut (now : Nat) (info : TabInfo) : Bool :=
  decide (TAB_HEARTBEAT_TIMEOUT < now - info.lastSeen)

/-- One pass of the eviction sweep in `_startHeartBeatListeners`: deletes
every timed-out tab and returns the ids for which a `BROWSER_CLOSE` event
is raised, which are the timed-out tabs that are not loader surfaces. -/
def sweepTabs (tabs : TabMap) (now : Nat) : TabMap × List String :=
  (List.filter (fun p => !(isTimedOut now p.2)) tabs,
   List.map Prod.fst (List.filter (fun p => isTimedOut now p.2 && !p.2.navigationTab) tabs))

/-! Concrete environments used by counterexamples and witnesses. -/

/-- The `PREVIEW_BASE_URL` of the instance used in concrete scenarios. -/
def witnessBaseUrl : String :=
  "https://phcode-live.ts.r.appspot.com/vfs/PHOENIX_LIVE_PREVIEW_w1/"

/-- A resolver environment with a started server, everything in-project,
and no overlay, live document, open document, or disk content. -/
def emptyResolverEnv : ResolverEnv :=
  { documentKey := fun p => p
    withinProject := fun _ => true
    virtualDocs := fun _ => none
    liveDocBody := fun _ => none
    openDocText := fun _ => none
    disk := fun _ => none
    remoteScript := "/phoenix/live-preview-remote.js"
    isMarkdownFile := fun p => strEndsWith p ".md"
    currentFile := none
    docTextForPath := fun _ => none
    serverStarted := true
    baseUrl := witnessBaseUrl
    currentPopoutURL := none }

/-- A concrete loader-page environment. -/
def loaderEnvW : LoaderEnv := { pageLoaderID := "loader-1", decode := fun s => s }

/-- A loader state that has acknowledged trust, used by witnesses. -/
def ackLoaderState : LoaderState :=
  { securityAlertAcknowledged := true
    previewURL := some (witnessBaseUrl ++ "proj/a.html")
    trustedProjects := ["/proj/"]
    currentProjectRoot := "/proj/"
    frameSrc := witnessBaseUrl ++ "proj/a.html"
    frameLoads := 3
    dialogVisible := false
    sessionAck := ["/proj/"] }


/-! Claim theorems. -/

/-- C1 (amended): for a requested path outside the project root, every
tier handled inside `_getInstrumentedContent` (overlay, live document,
open document, disk) resolves to null contents, regardless of overlay,
live-document, open-document or disk state; and `getContent` resolves to
the same null response whenever the request does not hit the markdown
tier, which precedes the security check. -/
theorem outsideProject_resolvesNull (env : ResolverEnv) (p : String) (u : UrlM)
    (hout : env.withinProject p = false) :
    getInstrumentedContent env p u =
      { path := env.documentKey p, contents := ContentVal.nullC, headers := none }
    ∧ (env.serverStarted = true →
       strStartsWith u.href env.baseUrl = true →
       (env.isMarkdownFile p && (env.currentFile == some p)) = false →
       getContent env p u =
         Except.ok { path := env.documentKey p, contents := ContentVal.nullC, headers := none }) := by
  constructor
  · simp [getInstrumentedContent, hout]
  · intro hs hu hm
    simp [getContent, hs, hu, hm, getInstrumentedContent, hout]

/-- Resolver environment for the markdown security-bypass scenario: the
current document is a markdown file that lies outside the project root. -/
def markdownBypassEnv : ResolverEnv :=
  { emptyResolverEnv with
      withinProject := fun _ => false
      currentFile := some "/outside/readme.md"
      docTextForPath := fun p => if p == "/outside/readme.md" then some "# Hi" else none }

/-- Request URL for the markdown security-bypass scenario. -/
def markdownBypassUrl : UrlM :=
  { base := witnessBaseUrl ++ "outside/readme.md", params := [] }

/-- C1 (counterexample): a `GET_CONTENT` for a markdown path outside the
project root that equals the current file is answered with rendered
markdown content, not null — the markdown tier of `getContent` runs
before the in-project security check of `_getInstrumentedContent` and
bypasses it. -/
theorem outsideProject_markdown_bypass :
    markdownBypassEnv.withinProject "/outside/readme.md" = false
    ∧ getContent markdownBypassEnv "/outside/readme.md" markdownBypassUrl =
        Except.ok { path := "/outside/readme.md",
                    contents := ContentVal.markdownPage "# Hi",
                    headers := some "text/html" }
    ∧ ContentVal.markdownPage "# Hi" ≠ ContentVal.nullC := by
  refine ⟨rfl, rfl, by decide⟩

/-- C1 witness: the amended theorem applied to a concrete out-of-project
non-markdown request. -/
theorem outsideProject_resolvesNull_witness :
    getContent markdownBypassEnv "/outside/secret.txt" markdownBypassUrl =
      Except.ok { path := "/outside/secret.txt", contents := ContentVal.nullC, headers := none } :=
  (outsideProject_resolvesNull markdownBypassEnv "/outside/secret.txt" markdownBypassUrl rfl).2
    rfl (by decide) (by decide)

/-- C4 (amended): inside `_getInstrumentedContent`, a virtual-overlay
entry is the highest-precedence source — it is served verbatim whatever
the live-document, open-document, or disk state; via `getContent` the same
holds whenever the request does not hit the markdown tier, which is
consulted before the overlay. -/
theorem overlay_precedence (env : ResolverEnv) (p : String) (u : UrlM) (v : String)
    (hin : env.withinProject p = true)
    (hov : env.virtualDocs (env.documentKey p) = some v) :
    (getInstrumentedContent env p u).contents = ContentVal.text v
    ∧ ((env.isMarkdownFile p && (env.currentFile == some p)) = false →
       env.serverStarted = true →
       strStartsWith u.href env.baseUrl = true →
       ∃ r, getContent env p u = Except.ok r ∧ r.contents = ContentVal.text v) := by
  constructor
  · simp [getInstrumentedContent, hin, hov]
  · intro hm hs hu
    refine ⟨getInstrumentedContent env p u, ?_, ?_⟩
    · simp [getContent, hs, hu, hm]
    · simp [getInstrumentedContent, hin, hov]

/-- Resolver environment where the current markdown file also has a
virtual-overlay entry. -/
def overlayMarkdownEnv : ResolverEnv :=
  { emptyResolverEnv with
      virtualDocs := fun p => if p == "/proj/readme.md" then some "OVERLAY" else none
      currentFile := some "/proj/readme.md"
      docTextForPath := fun p => if p == "/proj/readme.md" then some "# Hi" else none }

/-- Request URL for the overlay-versus-markdown scenario. -/
def overlayMarkdownUrl : UrlM :=
  { base := witnessBaseUrl ++ "proj/readme.md", params := [] }

/-- C4 (counterexample): for the currently edited markdown file, the
markdown rendering path wins over a present virtual-overlay entry — the
overlay is not the highest-precedence source for that path. -/
theorem overlay_markdown_counterexample :
    overlayMarkdownEnv.withinProject "/proj/readme.md" = true
    ∧ overlayMarkdownEnv.virtualDocs "/proj/readme.md" = some "OVERLAY"
    ∧ getContent overlayMarkdownEnv "/proj/readme.md" overlayMarkdownUrl =
        Except.ok { path := "/proj/readme.md",
                    contents := ContentVal.markdownPage "# Hi",
                    headers := some "text/html" }
    ∧ ContentVal.markdownPage "# Hi" ≠ ContentVal.text "OVERLAY" := by
  refine ⟨rfl, rfl, rfl, by decide⟩

/-- C4 witness: the amended theorem applied to a concrete overlaid
non-markdown path. -/
theorem overlay_precedence_witness :
    (getInstrumentedContent
        { emptyResolverEnv with
            virtualDocs := fun p => if p == "/proj/a.html" then some "OVERLAY" else none
            liveDocBody := fun _ => some "LIVE"
            openDocText := fun _ => some "OPEN"
            disk := fun _ => some [1, 2, 3] }
        "/proj/a.html"
        { base := witnessBaseUrl ++ "proj/a.html", params := [] }).contents
      = ContentVal.text "OVERLAY" :=
  (overlay_precedence
      { emptyResolverEnv with
          virtualDocs := fun p => if p == "/proj/a.html" then some "OVERLAY" else none
          liveDocBody := fun _ => some "LIVE"
          openDocText := fun _ => some "OPEN"
          disk := fun _ => some [1, 2, 3] }
      "/proj/a.html"
      { base := witnessBaseUrl ++ "proj/a.html", params := [] }
      "OVERLAY" rfl rfl).1

/-- C5 (amended): when the request carries a truthy popout flag, no
overlay shadows the path, and the live preview body lacks the live-reload
instrumentation marker, the resolver substitutes a redirect page — and the
page targets the requested URL with the popout query parameter stripped
(not the now-current preview URL). -/
theorem popout_stale_redirect (env : ResolverEnv) (p : String) (u : UrlM) (body : String)
    (hin : env.withinProject p = true)
    (hov : env.virtualDocs (env.documentKey p) = none)
    (hld : env.liveDocBody (env.documentKey p) = some body)
    (hpop : jsTruthy (u.getParam PHCODE_LIVE_PREVIEW_QUERY_PARAM) = true)
    (hmiss : jsIndexOfMissing body env.remoteScript = true) :
    (getInstrumentedContent env p u).contents =
      ContentVal.redirectPageTo (u.deleteParam PHCODE_LIVE_PREVIEW_QUERY_PARAM) := by
  simp [getInstrumentedContent, hin, hov, hld, hpop, hmiss, getRedirectionPage]

/-- Resolver environment for the stale-navigation race: the live preview
has moved on to `new.html` while a popped-out tab still requests
`old.html`, whose stale body carries no instrumentation marker. -/
def staleRaceEnv : ResolverEnv :=
  { emptyResolverEnv with
      liveDocBody := fun p => if p == "/proj/old.html" then some "<html>stale</html>" else none
      currentPopoutURL := some (witnessBaseUrl ++ "proj/new.html") }

/-- The popped-out tab's request URL for `old.html`. -/
def staleRaceUrl : UrlM :=
  { base := witnessBaseUrl ++ "proj/old.html",
    params := [(PHCODE_LIVE_PREVIEW_QUERY_PARAM, "true")] }

/-- C5 (counterexample): in the stale-navigation race the redirect page
targets the requested `old.html` URL (popout parameter stripped), which
differs from the now-current `new.html` preview URL. -/
theorem popout_redirect_counterexample :
    staleRaceEnv.currentPopoutURL = some (witnessBaseUrl ++ "proj/new.html")
    ∧ getInstrumentedContent staleRaceEnv "/proj/old.html" staleRaceUrl =
        { path := "/proj/old.html",
          contents := ContentVal.redirectPageTo
            { base := witnessBaseUrl ++ "proj/old.html", params := [] },
          headers := some HTML_UTF8_CONTENT_TYPE }
    ∧ UrlM.href { base := witnessBaseUrl ++ "proj/old.html", params := [] }
        ≠ witnessBaseUrl ++ "proj/new.html" := by
  refine ⟨rfl, rfl, by decide⟩

/-- C5 witness: the amended theorem applied to the concrete
stale-navigation race. -/
theorem popout_stale_redirect_witness :
    (getInstrumentedContent staleRaceEnv "/proj/old.html" staleRaceUrl).contents =
      ContentVal.redirectPageTo
        (staleRaceUrl.deleteParam PHCODE_LIVE_PREVIEW_QUERY_PARAM) :=
  popout_stale_redirect staleRaceEnv "/proj/old.html" staleRaceUrl "<html>stale</html>"
    rfl rfl rfl (by decide) (by decide)

/-- C6 (amended): a disk read error resolves with null contents and the
channel handler still sends a well-formed null-content response; a
rejected resolution (stopped server, foreign-instance URL, or markdown
render failure) never crosses the channel as an exception, but it is
swallowed by the catch and produces no response message at all. -/
theorem disk_error_soft404 (env : ResolverEnv) (p : String) (u : UrlM)
    (hin : env.withinProject p = true)
    (hov : env.virtualDocs (env.documentKey p) = none)
    (hld : env.liveDocBody (env.documentKey p) = none)
    (hod : env.openDocText p = none)
    (hdisk : env.disk p = none) :
    getInstrumentedContent env p u =
      { path := env.documentKey p, contents := ContentVal.nullC, headers := none }
    ∧ (∀ reqID : Nat, env.serverStarted = true →
        strStartsWith u.href env.baseUrl = true →
        (env.isMarkdownFile p && (env.currentFile == some p)) = false →
        handleGetContent env { requestID := reqID, path := p, url := u } =
          some { requestID := reqID,
                 response := { path := env.documentKey p,
                               contents := ContentVal.nullC, headers := none } })
    ∧ (∀ (reqID : Nat) (e : String), getContent env p u = Except.error e →
        handleGetContent env { requestID := reqID, path := p, url := u } = none) := by
  refine ⟨?_, ?_, ?_⟩
  · simp [getInstrumentedContent, hin, hov, hld, hod, hdisk]
  · intro reqID hs hu hm
    simp [handleGetContent, getContent, hs, hu, hm,
          getInstrumentedContent, hin, hov, hld, hod, hdisk]
  · intro reqID e herr
    simp [handleGetContent, herr]

/-- A request URL that belongs to a different phoenix instance. -/
def foreignInstanceUrl : UrlM :=
  { base := "https://phcode-live.ts.r.appspot.com/vfs/PHOENIX_LIVE_PREVIEW_other/x.html",
    params := [] }

/-- C6 (counterexample): a `GET_CONTENT` whose URL belongs to another
phoenix instance makes `getContent` reject; the channel handler swallows
the rejection and the caller receives no response at all — not a
null-content response. -/
theorem rejected_request_no_response :
    getContent emptyResolverEnv "/proj/x.html" foreignInstanceUrl =
      Except.error ("Not serving content as url belongs to another phcode instance: "
        ++ foreignInstanceUrl.href)
    ∧ handleGetContent emptyResolverEnv
        { requestID := 42, path := "/proj/x.html", url := foreignInstanceUrl } = none := by
  refine ⟨rfl, rfl⟩

/-- C6 witness: the amended theorem applied to a concrete in-project path
whose disk read fails. -/
theorem disk_error_soft404_witness :
    handleGetContent emptyResolverEnv
        { requestID := 9, path := "/proj/missing.html",
          url := { base := witnessBaseUrl ++ "proj/missing.html", params := [] } } =
      some { requestID := 9,
             response := { path := "/proj/missing.html",
                           contents := ContentVal.nullC, headers := none } } :=
  ((disk_error_soft404 emptyResolverEnv "/proj/missing.html"
      { base := witnessBaseUrl ++ "proj/missing.html", params := [] }
      rfl rfl rfl rfl rfl).2.1) 9 rfl (by decide) (by decide)

/-- C9 (amended): for an HTML-family resolved path, the response carries
the forced `text/html;charset=UTF-8` header when the content is produced
by the overlay, live-document, or open-document tier, but the disk-read
tier resolves without any header. -/
theorem html_header_tiers (env : ResolverEnv) (p : String) (u : UrlM)
    (hin : env.withinProject p = true)
    (hhtml : isHtmlFamilyPath (env.documentKey p) = true) :
    (∀ v, env.virtualDocs (env.documentKey p) = some v →
       (getInstrumentedContent env p u).headers = some HTML_UTF8_CONTENT_TYPE)
    ∧ (∀ b, env.virtualDocs (env.documentKey p) = none →
         env.liveDocBody (env.documentKey p) = some b →
         (getInstrumentedContent env p u).headers = some HTML_UTF8_CONTENT_TYPE)
    ∧ (∀ t, env.virtualDocs (env.documentKey p) = none →
         env.liveDocBody (env.documentKey p) = none →
         env.openDocText p = some t →
         (getInstrumentedContent env p u).headers = some HTML_UTF8_CONTENT_TYPE)
    ∧ (env.virtualDocs (env.documentKey p) = none →
       env.liveDocBody (env.documentKey p) = none →
       env.openDocText p = none →
       (getInstrumentedContent env p u).headers = none) := by
  refine ⟨?_, ?_, ?_, ?_⟩
  · intro v hov
    simp [getInstrumentedContent, hin, hov, hhtml]
  · intro b hov hld
    simp only [getInstrumentedContent, hin, hov, hld]
    split
    · simp_all
    · split
      · next heq => split at heq <;> simp_all
      · simp [hhtml]
  · intro t hov hld hod
    simp [getInstrumentedContent, hin, hov, hld, hod, hhtml]
  · intro hov hld hod
    simp [getInstrumentedContent, hin, hov, hld, hod]

/-- Resolver environment where an HTML file exists only on disk. -/
def diskOnlyEnv : ResolverEnv :=
  { emptyResolverEnv with
      disk := fun p => if p == "/proj/a.html" then some [60, 104, 62] else none }

/-- C9 (counterexample): content for an `.html` path produced by the
disk-read tier is returned without any Content-Type header. -/
theorem html_header_disk_counterexample :
    isHtmlFamilyPath "/proj/a.html" = true
    ∧ getInstrumentedContent diskOnlyEnv "/proj/a.html"
        { base := witnessBaseUrl ++ "proj/a.html", params := [] } =
      { path := "/proj/a.html", contents := ContentVal.bytes [60, 104, 62], headers := none } := by
  refine ⟨by decide, rfl⟩

/-- C9 witness: the amended theorem applied to a concrete overlaid
`.html` path. -/
theorem html_header_tiers_witness :
    (getInstrumentedContent
        { emptyResolverEnv with
            virtualDocs := fun p => if p == "/proj/a.html" then some "O" else none }
        "/proj/a.html"
        { base := witnessBaseUrl ++ "proj/a.html", params := [] }).headers
      = some HTML_UTF8_CONTENT_TYPE :=
  (html_header_tiers
      { emptyResolverEnv with
          virtualDocs := fun p => if p == "/proj/a.html" then some "O" else none }
      "/proj/a.html"
      { base := witnessBaseUrl ++ "proj/a.html", params := [] }
      rfl (by decide)).1 "O" rfl

/-- C2: a message whose origin is not in the fixed `TRUSTED_ORIGINS`
allowlist is dropped by the loader's window listener before reaching any
handler: the loader state is unchanged and nothing is forwarded on the
relay channel, so a `GET_CONTENT` payload from such an origin produces no
`REQUEST_RESPONSE` and triggers no resolution — observably identical to
the message never arriving, independent of trust state. -/
theorem untrusted_origin_discarded (env : LoaderEnv) (renv : ResolverEnv)
    (st : LoaderState) (origin : String) (data : RelayData)
    (h : TRUSTED_ORIGINS.contains origin = false) :
    handleWindowMessage env st origin data = (st, [])
    ∧ windowMessageContentResponses env renv st origin data = (st, []) := by
  have h' : origin ∉ TRUSTED_ORIGINS := by simpa using h
  refine ⟨?_, ?_⟩ <;>
    simp [handleWindowMessage, windowMessageContentResponses, h']

/-- C2 witness: the theorem applied to a `GET_CONTENT` message from the
untrusted origin `https://evil.example`. -/
theorem untrusted_origin_discarded_witness :
    TRUSTED_ORIGINS.contains "https://evil.example" = false
    ∧ windowMessageContentResponses loaderEnvW emptyResolverEnv (initLoaderState "/proj/")
        "https://evil.example"
        (RelayData.getContentData
          { requestID := 7, path := "/proj/a.html",
            url := { base := witnessBaseUrl ++ "proj/a.html", params := [] } })
      = (initLoaderState "/proj/", []) :=
  ⟨by decide,
   (untrusted_origin_discarded loaderEnvW emptyResolverEnv (initLoaderState "/proj/")
      "https://evil.example"
      (RelayData.getContentData
        { requestID := 7, path := "/proj/a.html",
          url := { base := witnessBaseUrl ++ "proj/a.html", params := [] } })
      (by decide)).2⟩

/-- Every navigation-channel message leaves the `trustedProjects` map
unchanged: only `securityOk` writes to it. -/
theorem handleNavMessage_trustedProjects (env : LoaderEnv) (st : LoaderState)
    (m : NavMessage) :
    (handleNavMessage env st m).trustedProjects = st.trustedProjects := by
  cases m with
  | initialUrlNavigate URL lid =>
      simp only [handleNavMessage]
      split <;> simp [setFrame]
  | redirectPage URL force =>
      simp only [handleNavMessage]
      split
      · simp [setFrame]
      · split <;> simp [setFrame]
  | updateTitleIcon => rfl
  | projectSwitch root =>
      simp only [handleNavMessage]
      split <;> simp [setFrame]
  | tabLoaderOnline => rfl

/-- A loader step either leaves `trustedProjects` unchanged or (for the
trust acknowledgment) prepends the current project root. -/
theorem loaderStep_trustedProjects (env : LoaderEnv) (st : LoaderState) (s : LoaderStep) :
    (loaderStep env st s).trustedProjects = st.trustedProjects
    ∨ (loaderStep env st s).trustedProjects =
        st.currentProjectRoot :: st.trustedProjects := by
  cases s with
  | nav m => exact Or.inl (handleNavMessage_trustedProjects env st m)
  | trustOk => exact Or.inr (by simp [loaderStep, securityOk, setFrame])
  | winMsg origin data =>
      refine Or.inl ?_
      simp only [loaderStep, handleWindowMessage]
      split <;> rfl

/-- A loader step never changes the frame or the acknowledged flag except
through the explicit assignments of the handlers; in particular a window
message leaves the whole state unchanged. -/
theorem winMsg_state_unchanged (env : LoaderEnv) (st : LoaderState)
    (origin : String) (data : RelayData) :
    loaderStep env st (LoaderStep.winMsg origin data) = st := by
  simp only [loaderStep, handleWindowMessage]
  split <;> rfl

/-- C8: trust is keyed per project root: no root is trusted in the
initial state; `securityOk` (the markTrusted action) makes the current
root trusted; a `PROJECT_SWITCH` changes no root's trusted status, and
re-enters the unacknowledged state when the new root is untrusted; once
trusted a root stays trusted under every loader step; and a root stays
untrusted under every step that is not a trust acknowledgment made while
that root is current. -/
theorem trustGate_per_root (env : LoaderEnv) :
    (∀ r0 root, isTrusted (initLoaderState r0) root = false)
    ∧ (∀ st, isTrusted (securityOk env st) st.currentProjectRoot = true)
    ∧ (∀ st newRoot root,
        isTrusted (handleNavMessage env st (NavMessage.projectSwitch newRoot)) root
          = isTrusted st root)
    ∧ (∀ st newRoot, isTrusted st newRoot = false →
        (handleNavMessage env st (NavMessage.projectSwitch newRoot)).securityAlertAcknowledged
          = false)
    ∧ (∀ st s root, isTrusted st root = true → isTrusted (loaderStep env st s) root = true)
    ∧ (∀ st s root, isTrusted st root = false →
        (s = LoaderStep.trustOk → st.currentProjectRoot ≠ root) →
        isTrusted (loaderStep env st s) root = false) := by
  refine ⟨?_, ?_, ?_, ?_, ?_, ?_⟩
  · intro r0 root
    simp [isTrusted, initLoaderState]
  · intro st
    simp [isTrusted, securityOk, setFrame]
  · intro st newRoot root
    simp [isTrusted, handleNavMessage_trustedProjects env st (NavMessage.projectSwitch newRoot)]
  · intro st newRoot h
    simp only [isTrusted] at h
    simp only [handleNavMessage]
    split
    · next hcond => simp_all
    · simp [setFrame]
  · intro st s root h
    rcases loaderStep_trustedProjects env st s with heq | heq <;>
      simp_all [isTrusted]
  · intro st s root h hnotok
    rcases loaderStep_trustedProjects env st s with heq | heq
    · simp_all [isTrusted]
    · have hcur : st.currentProjectRoot ≠ root := by
        apply hnotok
        cases s with
        | nav m =>
            exfalso
            have hpres := handleNavMessage_trustedProjects env st m
            simp only [loaderStep] at heq
            rw [hpres] at heq
            exact List.cons_ne_self _ _ heq.symm
        | trustOk => rfl
        | winMsg origin data =>
            exfalso
            have hw := winMsg_state_unchanged env st origin data
            rw [hw] at heq
            exact List.cons_ne_self _ _ heq.symm
      simp only [isTrusted, heq]
      simp only [isTrusted] at h
      simp at h ⊢
      exact ⟨fun hh => hcur hh.symm, h⟩

/-- C8 witness: the theorem applied to a concrete trusted/untrusted pair
of roots across a project switch. -/
theorem trustGate_per_root_witness :
    isTrusted (initLoaderState "/a/") "/a/" = false
    ∧ isTrusted (securityOk loaderEnvW ackLoaderState)
        ackLoaderState.currentProjectRoot = true
    ∧ isTrusted (handleNavMessage loaderEnvW ackLoaderState
        (NavMessage.projectSwitch "/b/")) "/proj/" = isTrusted ackLoaderState "/proj/"
    ∧ (handleNavMessage loaderEnvW ackLoaderState
        (NavMessage.projectSwitch "/b/")).securityAlertAcknowledged = false
    ∧ isTrusted (loaderStep loaderEnvW ackLoaderState
        (LoaderStep.nav (NavMessage.projectSwitch "/b/"))) "/proj/" = true := by
  refine ⟨?_, ?_, ?_, ?_, ?_⟩
  · exact (trustGate_per_root loaderEnvW).1 "/a/" "/a/"
  · exact (trustGate_per_root loaderEnvW).2.1 ackLoaderState
  · exact (trustGate_per_root loaderEnvW).2.2.1 ackLoaderState "/b/" "/proj/"
  · have hb : isTrusted ackLoaderState "/b/" = false := by decide
    exact (trustGate_per_root loaderEnvW).2.2.2.1 ackLoaderState "/b/" hb
  · have hp : isTrusted ackLoaderState "/proj/" = true := by decide
    exact (trustGate_per_root loaderEnvW).2.2.2.2.1 ackLoaderState
      (LoaderStep.nav (NavMessage.projectSwitch "/b/")) "/proj/" hp

/-- Invariant of reachable loader states: an acknowledged alert means the
current root is trusted, and an unacknowledged loader keeps its preview
frame on the `about:blank` placeholder. -/
theorem loader_invariant (env : LoaderEnv) (st : LoaderState)
    (h : LoaderReachable env st) :
    (st.securityAlertAcknowledged = true → isTrusted st st.currentProjectRoot = true)
    ∧ (st.securityAlertAcknowledged = false → st.frameSrc = "about:blank") := by
  induction h with
  | init root => simp [initLoaderState]
  | step s hR ih =>
      obtain ⟨ih1, ih2⟩ := ih
      rename_i st0
      cases s with
      | nav m =>
          cases m with
          | initialUrlNavigate URL lid =>
              simp only [loaderStep, handleNavMessage]
              split
              · exact ⟨fun hh => by simp_all [isTrusted], fun hh => by simp_all⟩
              · next hcond =>
                  constructor
                  · intro _
                    simp only [Bool.or_eq_true, Bool.not_eq_true', bne_iff_ne,
                      not_or, not_not] at hcond
                    simp [setFrame, isTrusted]
                    have := ih1 (by simpa using hcond.1)
                    simpa [isTrusted] using this
                  · intro hh
                    simp [setFrame] at hh
                    simp only [Bool.or_eq_true, Bool.not_eq_true'] at hcond
                    simp_all
          | redirectPage URL force =>
              simp only [loaderStep, handleNavMessage]
              split
              · exact ⟨fun hh => by simp_all [isTrusted], fun hh => by simp_all⟩
              · next hcond =>
                  simp only [Bool.not_eq_true', Bool.not_eq_false] at hcond
                  split
                  · constructor
                    · intro _
                      have := ih1 hcond
                      simpa [setFrame, isTrusted] using this
                    · intro hh
                      simp [setFrame] at hh
                      simp_all
                  · constructor
                    · intro _
                      have := ih1 hcond
                      simpa [isTrusted] using this
                    · intro hh
                      simp_all
          | updateTitleIcon => exact ⟨ih1, ih2⟩
          | projectSwitch root =>
              simp only [loaderStep, handleNavMessage]
              split
              · next hcond =>
                  constructor
                  · intro _
                    simpa [setFrame, isTrusted] using hcond
                  · intro hh
                    simp [setFrame] at hh
              · next hcond =>
                  exact ⟨fun hh => by simp [setFrame] at hh, fun _ => by simp [setFrame]⟩
          | tabLoaderOnline => exact ⟨ih1, ih2⟩
      | trustOk =>
          constructor
          · intro _
            simp [loaderStep, securityOk, setFrame, isTrusted]
          · intro hh
            simp [loaderStep, securityOk, setFrame] at hh
      | winMsg origin data =>
          rw [winMsg_state_unchanged env st0 origin data]
          exact ⟨ih1, ih2⟩

/-- C3: while the current project root is unacknowledged (not trusted),
every `INITIAL_URL_NAVIGATE` and every `REDIRECT_PAGE` received by a
reachable loader leaves the preview frame on the `about:blank`
placeholder without reloading it; only the explicit trust action
(`securityOk`) loads the real preview URL and acknowledges. -/
theorem unacknowledged_blocks_navigation (env : LoaderEnv) (st : LoaderState)
    (hreach : LoaderReachable env st)
    (huntrusted : isTrusted st st.currentProjectRoot = false) :
    (∀ URL lid,
        (handleNavMessage env st (NavMessage.initialUrlNavigate URL lid)).frameSrc
          = "about:blank"
        ∧ (handleNavMessage env st (NavMessage.initialUrlNavigate URL lid)).frameLoads
          = st.frameLoads)
    ∧ (∀ URL force,
        (handleNavMessage env st (NavMessage.redirectPage URL force)).frameSrc
          = "about:blank"
        ∧ (handleNavMessage env st (NavMessage.redirectPage URL force)).frameLoads
          = st.frameLoads)
    ∧ ((securityOk env st).frameSrc = decodePreview env st
       ∧ (securityOk env st).securityAlertAcknowledged = true) := by
  obtain ⟨hackT, hblank⟩ := loader_invariant env st hreach
  have hack : st.securityAlertAcknowledged = false := by
    cases hax : st.securityAlertAcknowledged
    · rfl
    · rw [hackT hax] at huntrusted
      exact absurd huntrusted (by simp)
  have hfr : st.frameSrc = "about:blank" := hblank hack
  refine ⟨?_, ?_, ?_⟩
  · intro URL lid
    simp [handleNavMessage, hack, hfr]
  · intro URL force
    simp [handleNavMessage, hack, hfr]
  · constructor
    · simp [securityOk, setFrame, decodePreview]
    · simp [securityOk, setFrame]

/-- C3 witness: the theorem applied to the fresh-session initial loader
state, whose current root is untrusted. -/
theorem unacknowledged_blocks_navigation_witness :
    (handleNavMessage loaderEnvW (initLoaderState "/proj/")
        (NavMessage.redirectPage (witnessBaseUrl ++ "proj/a.html") true)).frameSrc
      = "about:blank" :=
  (((unacknowledged_blocks_navigation loaderEnvW (initLoaderState "/proj/")
      (LoaderReachable.init "/proj/") (by decide)).2.1)
    (witnessBaseUrl ++ "proj/a.html") true).1

/-- C10: for a `REDIRECT_PAGE` received by a loader that has acknowledged
trust, a falsy force flag together with an unchanged URL leaves the
preview frame untouched (no reload), while a true force flag or a
different URL loads the message's URL into the frame. -/
theorem redirectPage_frame_effect (env : LoaderEnv) (st : LoaderState) (URL : String)
    (force : Bool) (hack : st.securityAlertAcknowledged = true) :
    ((force = false ∧ st.frameSrc = URL) →
       (handleNavMessage env st (NavMessage.redirectPage URL force)).frameSrc = st.frameSrc
       ∧ (handleNavMessage env st (NavMessage.redirectPage URL force)).frameLoads
           = st.frameLoads)
    ∧ ((force = true ∨ st.frameSrc ≠ URL) →
       (handleNavMessage env st (NavMessage.redirectPage URL force)).frameSrc = URL) := by
  constructor
  · rintro ⟨hf, hu⟩
    subst hf
    simp [handleNavMessage, hack, hu]
  · rintro (hf | hu)
    · subst hf
      simp [handleNavMessage, hack, setFrame]
    · simp [handleNavMessage, hack, setFrame, hu]

/-- C10 witness: the theorem applied to a concrete acknowledged loader
state, for both the no-reload and the forced-navigation case. -/
theorem redirectPage_frame_effect_witness :
    (handleNavMessage loaderEnvW ackLoaderState
        (NavMessage.redirectPage (witnessBaseUrl ++ "proj/a.html") false)).frameLoads = 3
    ∧ (handleNavMessage loaderEnvW ackLoaderState
        (NavMessage.redirectPage (witnessBaseUrl ++ "proj/b.html") false)).frameSrc
        = witnessBaseUrl ++ "proj/b.html" :=
  ⟨((redirectPage_frame_effect loaderEnvW ackLoaderState (witnessBaseUrl ++ "proj/a.html")
        false rfl).1 ⟨rfl, rfl⟩).2,
   (redirectPage_frame_effect loaderEnvW ackLoaderState (witnessBaseUrl ++ "proj/b.html")
        false rfl).2 (Or.inr (by decide))⟩

/-! Tab registry lemmas. The JavaScript `Map` keeps its keys unique, so
lemmas that need it take the key-uniqueness hypothesis explicitly. -/

/-- A successful tab lookup yields an entry of the map. -/
theorem tabsGet_mem {l : TabMap} {id : String} {info : TabInfo}
    (h : tabsGet l id = some info) : (id, info) ∈ l := by
  unfold tabsGet at h
  cases hf : List.find? (fun p => p.1 == id) l with
  | none => rw [hf] at h; simp at h
  | some p =>
      rw [hf] at h
      have hmem := List.mem_of_find?_eq_some hf
      have hpred := List.find?_some hf
      cases p with
      | mk k i =>
          simp at hpred h
          rw [hpred, h] at hmem
          exact hmem

/-- A key matching no entry looks up to nothing. -/
theorem tabsGet_eq_none {l : TabMap} {id : String}
    (h : ∀ p ∈ l, p.1 ≠ id) : tabsGet l id = none := by
  unfold tabsGet
  rw [List.find?_eq_none.mpr]
  · rfl
  · intro p hp
    simp [h p hp]

/-- With unique keys, a map entry determines the lookup result. -/
theorem tabsGet_of_mem_nodup {l : TabMap} (hnd : (l.map Prod.fst).Nodup)
    {id : String} {info : TabInfo} (h : (id, info) ∈ l) :
    tabsGet l id = some info := by
  induction l with
  | nil => simp at h
  | cons hd tl ih =>
      simp only [List.map_cons, List.nodup_cons] at hnd
      rcases List.mem_cons.mp h with h1 | h1
      · rw [← h1]
        simp [tabsGet, List.find?]
      · have hne : hd.1 ≠ id := by
          intro hcontra
          apply hnd.1
          rw [hcontra]
          exact List.mem_map_of_mem Prod.fst h1
        have hk : (hd.1 == id) = false := by simp [hne]
        simp only [tabsGet, List.find?, hk]
        exact ih hnd.2 h1

/-- With unique keys, two entries with the same key carry the same
record. -/
theorem tabs_key_unique {l : TabMap} (hnd : (l.map Prod.fst).Nodup)
    {id : String} {a b : TabInfo} (ha : (id, a) ∈ l) (hb : (id, b) ∈ l) : a = b := by
  induction l with
  | nil => simp at ha
  | cons hd tl ih =>
      simp only [List.map_cons, List.nodup_cons] at hnd
      rcases List.mem_cons.mp ha with ha1 | ha1 <;> rcases List.mem_cons.mp hb with hb1 | hb1
      · rw [← ha1] at hb1
        injection hb1 with h1 h2
        exact h2.symm
      · exfalso
        apply hnd.1
        have hhd : hd.1 = id := by rw [← ha1]
        rw [hhd]
        exact List.mem_map_of_mem Prod.fst hb1
      · exfalso
        apply hnd.1
        have hhd : hd.1 = id := by rw [← hb1]
        rw [hhd]
        exact List.mem_map_of_mem Prod.fst ha1
      · exact ih hnd.2 ha1 hb1

/-- The sweep never duplicates keys. -/
theorem sweep_keys_nodup {tabs : TabMap} (hnd : (tabs.map Prod.fst).Nodup) (now : Nat) :
    ((sweepTabs tabs now).1.map Prod.fst).Nodup :=
  List.Nodup.sublist ((List.filter_sublist tabs).map Prod.fst) hnd

/-- A tab whose record is within the timeout survives the sweep intact
and raises no eviction event. -/
theorem sweep_keeps_fresh {tabs : TabMap} {id : String} {info : TabInfo} {now : Nat}
    (hnd : (tabs.map Prod.fst).Nodup)
    (hget : tabsGet tabs id = some info) (hfresh : isTimedOut now info = false) :
    tabsGet (sweepTabs tabs now).1 id = some info ∧ id ∉ (sweepTabs tabs now).2 := by
  have hmem : (id, info) ∈ tabs := tabsGet_mem hget
  constructor
  · apply tabsGet_of_mem_nodup (sweep_keys_nodup hnd now)
    simp only [sweepTabs, List.mem_filter]
    exact ⟨hmem, by simp [hfresh]⟩
  · intro hin
    simp only [sweepTabs, List.mem_map] at hin
    obtain ⟨p, hp, hpid⟩ := hin
    rw [List.mem_filter] at hp
    cases p with
    | mk k i =>
        simp only at hpid
        subst hpid
        have hi : i = info := tabs_key_unique hnd hp.1 hmem
        subst hi
        simp [hfresh] at hp

/-- A tab whose record is past the timeout is removed by the sweep, and
the eviction event fires exactly when it is not a loader surface. -/
theorem sweep_evicts {tabs : TabMap} {id : String} {info : TabInfo} {now : Nat}
    (hnd : (tabs.map Prod.fst).Nodup)
    (hget : tabsGet tabs id = some info) (hstale : isTimedOut now info = true) :
    tabsGet (sweepTabs tabs now).1 id = none
    ∧ (id ∈ (sweepTabs tabs now).2 ↔ info.navigationTab = false) := by
  have hmem : (id, info) ∈ tabs := tabsGet_mem hget
  constructor
  · apply tabsGet_eq_none
    intro p hp hpid
    simp only [sweepTabs] at hp
    rw [List.mem_filter] at hp
    cases p with
    | mk k i =>
        simp only at hpid
        subst hpid
        have hi : i = info := tabs_key_unique hnd hp.1 hmem
        subst hi
        simp [hstale] at hp
  · constructor
    · intro hin
      simp only [sweepTabs, List.mem_map] at hin
      obtain ⟨p, hp, hpid⟩ := hin
      rw [List.mem_filter] at hp
      cases p with
      | mk k i =>
          simp only at hpid
          subst hpid
          have hi : i = info := tabs_key_unique hnd hp.1 hmem
          subst hi
          have := hp.2
          simp [hstale] at this
          simpa using this
    · intro hnav
      exact List.mem_map_of_mem Prod.fst
        (List.mem_filter.mpr ⟨hmem, by simp [hstale, hnav]⟩)

/-- A key absent from the registry is untouched by a sweep: it stays
absent and triggers no eviction event. -/
theorem sweep_no_key {tabs : TabMap} {id : String} {now : Nat}
    (hget : tabsGet tabs id = none) :
    tabsGet (sweepTabs tabs now).1 id = none ∧ id ∉ (sweepTabs tabs now).2 := by
  have hfind : List.find? (fun p => p.1 == id) tabs = none := by
    unfold tabsGet at hget
    exact Option.map_eq_none'.mp hget
  have hall : ∀ p ∈ tabs, p.1 ≠ id := by
    intro p hp
    have := List.find?_eq_none.mp hfind p hp
    simpa using this
  constructor
  · apply tabsGet_eq_none
    intro p hp
    exact hall p (List.mem_of_mem_filter hp)
  · intro hin
    simp only [sweepTabs, List.mem_map] at hin
    obtain ⟨p, hp, hpid⟩ := hin
    rw [List.mem_filter] at hp
    exact hall p hp.1 hpid

/-- Lookup through the updated map after `Map.set` of an existing key. -/
theorem find_map_set (tabs : TabMap) (id : String) (info : TabInfo) :
    List.find? (fun p => p.1 == id)
      (List.map (fun p => if p.1 == id then (id, info) else p) tabs)
    = if List.any tabs (fun p => p.1 == id) then some (id, info) else none := by
  induction tabs with
  | nil => simp
  | cons hd tl ih =>
      by_cases hk : (hd.1 == id) = true
      · rw [List.map_cons, if_pos hk, List.any_cons, hk, Bool.true_or]
        rw [if_pos rfl]
        exact List.find?_cons_of_pos _ (by simp)
      · have hk' : (hd.1 == id) = false := Bool.eq_false_iff.mpr hk
        rw [List.map_cons, if_neg hk, List.any_cons, hk', Bool.false_or]
        simp only [List.find?, hk']
        exact ih

/-- Lookup after appending a new entry for a previously absent key. -/
theorem find_append_new (tabs : TabMap) (id : String) (info : TabInfo)
    (h : List.any tabs (fun p => p.1 == id) = false) :
    List.find? (fun p => p.1 == id) (tabs ++ [(id, info)]) = some (id, info) := by
  induction tabs with
  | nil => simp [List.find?]
  | cons hd tl ih =>
      simp only [List.any_cons, Bool.or_eq_false_iff] at h
      simp [List.find?, h.1, ih h.2]

/-- A heartbeat recorded with `Map.set` is immediately visible. -/
theorem tabsGet_set_self (tabs : TabMap) (id : String) (info : TabInfo) :
    tabsGet (tabsSet tabs id info) id = some info := by
  unfold tabsSet
  by_cases hany : List.any tabs (fun p => p.1 == id) = true
  · rw [if_pos hany]
    unfold tabsGet
    rw [find_map_set, if_pos hany]
    rfl
  · rw [if_neg hany]
    unfold tabsGet
    have hf : List.any tabs (fun p => p.1 == id) = false := Bool.eq_false_iff.mpr hany
    rw [find_append_new tabs id info hf]
    rfl

/-- C7: heartbeats refresh a tab's record in place (loader surfaces are
recorded with `navigationTab` true); a tab whose last heartbeat is within
the 10000 ms timeout is never evicted by a sweep; a tab whose last
heartbeat is older than the timeout is removed by the next sweep with a
`BROWSER_CLOSE` event exactly when it is not a loader surface, and a
subsequent sweep cannot evict it again. -/
theorem tabRegistry_eviction (tabs : TabMap) (id : String) (info : TabInfo)
    (now now2 : Nat) (hnd : (tabs.map Prod.fst).Nodup) :
    (∀ url t, tabsGet (recordLoaderHeartbeat tabs id url t) id =
          some { lastSeen := t, url := url, navigationTab := true }
        ∧ tabsGet (recordTabHeartbeat tabs id url t) id =
          some { lastSeen := t, url := url, navigationTab := false })
    ∧ (tabsGet tabs id = some info → now - info.lastSeen ≤ TAB_HEARTBEAT_TIMEOUT →
        tabsGet (sweepTabs tabs now).1 id = some info ∧ id ∉ (sweepTabs tabs now).2)
    ∧ (tabsGet tabs id = some info → TAB_HEARTBEAT_TIMEOUT < now - info.lastSeen →
        tabsGet (sweepTabs tabs now).1 id = none
        ∧ (id ∈ (sweepTabs tabs now).2 ↔ info.navigationTab = false)
        ∧ id ∉ (sweepTabs (sweepTabs tabs now).1 now2).2) := by
  refine ⟨?_, ?_, ?_⟩
  · intro url t
    exact ⟨tabsGet_set_self tabs id _, tabsGet_set_self tabs id _⟩
  · intro hget hfresh
    have hF : isTimedOut now info = false := by
      simp only [isTimedOut, decide_eq_false_iff_not, not_lt]
      exact hfresh
    exact sweep_keeps_fresh hnd hget hF
  · intro hget hstale
    have hT : isTimedOut now info = true := by
      simp only [isTimedOut, decide_eq_true_eq]
      exact hstale
    obtain ⟨h1, h2⟩ := sweep_evicts hnd hget hT
    exact ⟨h1, h2, (sweep_no_key h1).2⟩

/-- A concrete registry holding one loader surface and one content
surface, both last seen at time 0. -/
def tabsW : TabMap :=
  [("loaderA", { lastSeen := 0, url := some "u", navigationTab := true }),
   ("tabB", { lastSeen := 0, url := none, navigationTab := false })]

/-- C7 witness: the theorem applied to the concrete registry — a sweep at
time 20000 ms evicts the silent content surface `tabB` exactly once. -/
theorem tabRegistry_eviction_witness :
    tabsGet (sweepTabs tabsW 20000).1 "tabB" = none
    ∧ "tabB" ∈ (sweepTabs tabsW 20000).2
    ∧ "tabB" ∉ (sweepTabs (sweepTabs tabsW 20000).1 21000).2 := by
  have h := (tabRegistry_eviction tabsW "tabB"
      { lastSeen := 0, url := none, navigationTab := false } 20000 21000
      (by decide)).2.2 (by decide) (by decide)
  exact ⟨h.1, h.2.1.mpr rfl, h.2.2⟩

end Phoenix
